import Mathlib

set_option maxRecDepth 4000

/-!
Shallow embedding of the interview-scorecard repository
(scoring_engine.py, scorecard_api.py, output_generator.py,
question_generation/main.py, question_generation/question_generation.py)
and proofs about its scoring-validation, feedback-repair, aggregation,
report-splitting and live-session behaviour.

Python values decoded from JSON (the output of json.loads) are modelled by
the inductive type PyVal below; numbers are modelled exactly as rationals
(Python ints and floats, without float rounding), strings as Lean strings,
dicts as association lists with unique keys (as json.loads produces).
The LLM network call itself is outside the embedding: functions that in the
source call the LLM take the parsed reply (or a reply oracle) as an
explicit argument. Fallible Python code (raise ValueError and such) is
modelled with Except String; message texts are abridged where the source
interpolates Python runtime type names.
-/

namespace Iterate

/-- Values produced by json.loads: None, bool, int/float (as an exact
rational), str, list, dict. -/
inductive PyVal where
  | null
  | bool (b : Bool)
  | num (q : ℚ)
  | str (s : String)
  | list (xs : List PyVal)
  | dict (kvs : List (String × PyVal))
deriving Repr, Inhabited

mutual

/-- Decidable equality on PyVal (the automatic deriving does not handle
the nested List occurrences, so it is spelled out). -/
def PyVal.decEq : (a b : PyVal) → Decidable (a = b)
  | .null, .null => isTrue rfl
  | .bool x, .bool y =>
    match instDecidableEqBool x y with
    | isTrue h => isTrue (by rw [h])
    | isFalse h => isFalse (fun hh => h (PyVal.bool.inj hh))
  | .num x, .num y =>
    match (inferInstance : DecidableEq ℚ) x y with
    | isTrue h => isTrue (by rw [h])
    | isFalse h => isFalse (fun hh => h (PyVal.num.inj hh))
  | .str x, .str y =>
    match String.decEq x y with
    | isTrue h => isTrue (by rw [h])
    | isFalse h => isFalse (fun hh => h (PyVal.str.inj hh))
  | .list xs, .list ys =>
    match PyVal.decEqList xs ys with
    | isTrue h => isTrue (by rw [h])
    | isFalse h => isFalse (fun hh => h (PyVal.list.inj hh))
  | .dict xs, .dict ys =>
    match PyVal.decEqKVs xs ys with
    | isTrue h => isTrue (by rw [h])
    | isFalse h => isFalse (fun hh => h (PyVal.dict.inj hh))
  | .null, .bool _ => isFalse (fun h => PyVal.noConfusion h)
  | .null, .num _ => isFalse (fun h => PyVal.noConfusion h)
  | .null, .str _ => isFalse (fun h => PyVal.noConfusion h)
  | .null, .list _ => isFalse (fun h => PyVal.noConfusion h)
  | .null, .dict _ => isFalse (fun h => PyVal.noConfusion h)
  | .bool _, .null => isFalse (fun h => PyVal.noConfusion h)
  | .bool _, .num _ => isFalse (fun h => PyVal.noConfusion h)
  | .bool _, .str _ => isFalse (fun h => PyVal.noConfusion h)
  | .bool _, .list _ => isFalse (fun h => PyVal.noConfusion h)
  | .bool _, .dict _ => isFalse (fun h => PyVal.noConfusion h)
  | .num _, .null => isFalse (fun h => PyVal.noConfusion h)
  | .num _, .bool _ => isFalse (fun h => PyVal.noConfusion h)
  | .num _, .str _ => isFalse (fun h => PyVal.noConfusion h)
  | .num _, .list _ => isFalse (fun h => PyVal.noConfusion h)
  | .num _, .dict _ => isFalse (fun h => PyVal.noConfusion h)
  | .str _, .null => isFalse (fun h => PyVal.noConfusion h)
  | .str _, .bool _ => isFalse (fun h => PyVal.noConfusion h)
  | .str _, .num _ => isFalse (fun h => PyVal.noConfusion h)
  | .str _, .list _ => isFalse (fun h => PyVal.noConfusion h)
  | .str _, .dict _ => isFalse (fun h => PyVal.noConfusion h)
  | .list _, .null => isFalse (fun h => PyVal.noConfusion h)
  | .list _, .bool _ => isFalse (fun h => PyVal.noConfusion h)
  | .list _, .num _ => isFalse (fun h => PyVal.noConfusion h)
  | .list _, .str _ => isFalse (fun h => PyVal.noConfusion h)
  | .list _, .dict _ => isFalse (fun h => PyVal.noConfusion h)
  | .dict _, .null => isFalse (fun h => PyVal.noConfusion h)
  | .dict _, .bool _ => isFalse (fun h => PyVal.noConfusion h)
  | .dict _, .num _ => isFalse (fun h => PyVal.noConfusion h)
  | .dict _, .str _ => isFalse (fun h => PyVal.noConfusion h)
  | .dict _, .list _ => isFalse (fun h => PyVal.noConfusion h)

/-- Decidable equality on lists of PyVal. -/
def PyVal.decEqList : (xs ys : List PyVal) → Decidable (xs = ys)
  | [], [] => isTrue rfl
  | [], _ :: _ => isFalse (fun h => List.noConfusion h)
  | _ :: _, [] => isFalse (fun h => List.noConfusion h)
  | x :: xs, y :: ys =>
    match PyVal.decEq x y with
    | isFalse h1 => isFalse (fun h => h1 (List.cons.inj h).1)
    | isTrue h1 =>
      match PyVal.decEqList xs ys with
      | isTrue h2 => isTrue (by rw [h1, h2])
      | isFalse h2 => isFalse (fun h => h2 (List.cons.inj h).2)

/-- Decidable equality on string-keyed association lists of PyVal. -/
def PyVal.decEqKVs : (xs ys : List (String × PyVal)) → Decidable (xs = ys)
  | [], [] => isTrue rfl
  | [], _ :: _ => isFalse (fun h => List.noConfusion h)
  | _ :: _, [] => isFalse (fun h => List.noConfusion h)
  | (k1, v1) :: xs, (k2, v2) :: ys =>
    match String.decEq k1 k2 with
    | isFalse h1 => isFalse (fun h => h1 (congrArg Prod.fst (List.cons.inj h).1))
    | isTrue h1 =>
      match PyVal.decEq v1 v2 with
      | isFalse h2 => isFalse (fun h => h2 (congrArg Prod.snd (List.cons.inj h).1))
      | isTrue h2 =>
        match PyVal.decEqKVs xs ys with
        | isTrue h3 => isTrue (by rw [h1, h2, h3])
        | isFalse h3 => isFalse (fun h => h3 (List.cons.inj h).2)

end

instance : DecidableEq PyVal := PyVal.decEq

/-- Dict key lookup (first match, as in a Python dict, whose keys are
unique); returns Option.none on a missing key or a non-dict value. -/
def PyVal.lookup (v : PyVal) (k : String) : Option PyVal :=
  match v with
  | .dict kvs => (kvs.find? (fun p => p.1 == k)).map (fun p => p.2)
  | _ => none

/-- Python dict.get with a default. -/
def PyVal.getD (v : PyVal) (k : String) (d : PyVal) : PyVal :=
  (v.lookup k).getD d

/-- Python `k in d` key-membership test. -/
def PyVal.hasKey (v : PyVal) (k : String) : Bool :=
  (v.lookup k).isSome

/-- Replace the binding of `k` in an association list, or append it if
absent: the semantics of `d[k] = x` on a Python dict. -/
def setPair (kvs : List (String × PyVal)) (k : String) (x : PyVal) :
    List (String × PyVal) :=
  if kvs.any (fun p => p.1 == k) then
    kvs.map (fun p => if p.1 == k then (k, x) else p)
  else kvs ++ [(k, x)]

/-- Python `d[k] = x` on a dict value (identity on non-dicts, which the
source never reaches). -/
def PyVal.set (v : PyVal) (k : String) (x : PyVal) : PyVal :=
  match v with
  | .dict kvs => .dict (setPair kvs k x)
  | other => other

/-- Python isinstance(v, dict). -/
def PyVal.isDict : PyVal → Bool
  | .dict _ => true
  | _ => false

/-- Python isinstance(v, list). -/
def PyVal.isList : PyVal → Bool
  | .list _ => true
  | _ => false

/-- Python isinstance(v, (int, float)); a Python bool is a subclass of int,
so it also satisfies this test. -/
def PyVal.isNumber : PyVal → Bool
  | .num _ => true
  | .bool _ => true
  | _ => false

/-- Numeric value of a PyVal for Python arithmetic (bools count as 0/1);
Option.none models a Python TypeError on non-numeric operands. -/
def PyVal.asNum : PyVal → Option ℚ
  | .num q => some q
  | .bool b => some (if b then 1 else 0)
  | _ => none

/-! ### The scoring rubric (scoring_engine.py, SCORING_RUBRIC, lines 33-104) -/

/-- One entry of SCORING_RUBRIC: criterion name, the three level
descriptions, the mark for each level, and the criterion maximum. -/
structure RubricItem where
  criterion : String
  poor : String
  basic : String
  advanced : String
  mark_poor : ℤ
  mark_basic : ℤ
  mark_advanced : ℤ
  max_score : ℤ
deriving Repr, DecidableEq, Inhabited

/-- SCORING_RUBRIC from scoring_engine.py lines 33-104: 7 criteria, the
first 3 role-based (marks 0/2/4, max 4), the last 4 cultural fit
(marks 0/1/2, max 2). -/
def SCORING_RUBRIC : List RubricItem := [
  { criterion := "Analytical thinking and problem solving"
    poor := "Struggles to break down problems and identify root causes. Requires significant guidance."
    basic := "Can identify straightforward problems and apply basic logic to resolve them with some assistance."
    advanced := "Thinks critically and creatively to solve complex problems. Anticipates potential challenges and mitigates risks effectively."
    mark_poor := 0, mark_basic := 2, mark_advanced := 4, max_score := 4 },
  { criterion := "Mastering analytical toolset (Python, ...)"
    poor := "Familiar with some of the basic tools (pandas, simple dashboard on metabase), but struggles to use them effectively."
    basic := "Has basic familiarity with analytics tools but struggles to use them effectively without support."
    advanced := "Extensive knowledge of toolsets; integrates multiple tools seamlessly to create robust workflows and solve complex problems."
    mark_poor := 0, mark_basic := 2, mark_advanced := 4, max_score := 4 },
  { criterion := "Communication with stakeholders"
    poor := "Struggles to articulate findings and lacks clarity in communication."
    basic := "Can convey straightforward findings in a clear manner but may miss nuances or tailored messaging."
    advanced := "Excels in storytelling through data, crafting narratives that resonate with diverse audiences. Anticipates stakeholder needs proactively."
    mark_poor := 0, mark_basic := 2, mark_advanced := 4, max_score := 4 },
  { criterion := "Ambition / High standards"
    poor := "Accepts average or adequate results; rarely pushes beyond minimum requirements or seeks opportunities for improvement."
    basic := "Expects personal performance and team performance to be nothing short of the best."
    advanced := "Continuously sets aggressive, pioneering goals for self and team. Drives excellence and inspires others to achieve world-class outcomes."
    mark_poor := 0, mark_basic := 1, mark_advanced := 2, max_score := 2 },
  { criterion := "Curiosity"
    poor := "Focuses strictly on assigned tasks; rarely asks probing questions or seeks external information for context."
    basic := "Asks different questions across different subjects to have more context / learn."
    advanced := "Exhibits intellectual hunger, actively connects disparate ideas, and investigates underlying whys to drive innovative solutions."
    mark_poor := 0, mark_basic := 1, mark_advanced := 2, max_score := 2 },
  { criterion := "Honesty / Integrity"
    poor := "May occasionally bend the truth or withhold crucial information when facing pressure or mistakes."
    basic := "Earns trust and maintains confidence. Does what is right, not just what is politically expedient. Speaks plainly and truthfully."
    advanced := "Serves as a moral compass for the team; consistently models transparent and ethical behavior, even when it involves significant personal or professional cost."
    mark_poor := 0, mark_basic := 1, mark_advanced := 2, max_score := 2 },
  { criterion := "Work ethic"
    poor := "Completes tasks only within set working hours; exhibits resistance to going the extra mile, often missing deadlines due to lack of effort."
    basic := "Possesses a strong willingness to work hard and sometimes long hours to get the job done. Has a track record of working hard."
    advanced := "Demonstrates relentless commitment and ownership; focuses efforts efficiently for maximum impact, consistently exceeding output expectations without prompting."
    mark_poor := 0, mark_basic := 1, mark_advanced := 2, max_score := 2 }
]

/-- Lookup loop of scoring_engine.py lines 254-259: scan SCORING_RUBRIC for
the first item whose criterion equals the given value and take its
max_score, defaulting to 4 when no criterion matches (the argument is the
raw criterion field of a score entry, so it is an arbitrary PyVal). -/
def maxScoreFor (criterion_name : PyVal) : ℤ :=
  match SCORING_RUBRIC.find? (fun item => PyVal.str item.criterion == criterion_name) with
  | some item => item.max_score
  | none => 4

/-! ### Reply validation and repair
(scoring_engine.py, analyze_transcript_with_llm, lines 154-275)

The network call, the JSON text parse (lines 120-152) and the logging are
outside the embedding: the function below takes the reply already parsed
by json.loads and performs the validation, feedback repair and mark
reconciliation that the source performs on it. -/

/-- Mark reconciliation, scoring_engine.py lines 261-272: the level is
authoritative and the mark is overwritten on a mismatch; levels other than
the three known strings leave the mark untouched. -/
def reconcileMark (level mark : PyVal) (max_score : ℤ) : PyVal :=
  if level == PyVal.str "Poor" && mark != PyVal.num 0 then PyVal.num 0
  else if level == PyVal.str "Basic" then
    if max_score == 4 && mark != PyVal.num 2 then PyVal.num 2
    else if max_score == 2 && mark != PyVal.num 1 then PyVal.num 1
    else mark
  else if level == PyVal.str "Advanced" then
    if max_score == 4 && mark != PyVal.num 4 then PyVal.num 4
    else if max_score == 2 && mark != PyVal.num 2 then PyVal.num 2
    else mark
  else mark

/-- Mark reconciliation of one score entry, scoring_engine.py lines
249-272: read level, mark and criterion (criterion with default empty
string, line 252), look up the criterion maximum and store the reconciled
mark back into the entry. -/
def reconcileEntry (score : PyVal) : PyVal :=
  let level := score.getD "level" PyVal.null
  let mark := score.getD "mark" PyVal.null
  let criterion_name := score.getD "criterion" (PyVal.str "")
  score.set "mark" (reconcileMark level mark (maxScoreFor criterion_name))

/-- Required per-entry fields, scoring_engine.py line 234. -/
def requiredFields : List String := ["criterion", "level", "mark", "justification"]

/-- Field presence loop of scoring_engine.py lines 244-247: error on the
first missing required field, naming the entry index and the field. -/
def checkFields (i : Nat) (score : PyVal) : List String → Except String Unit
  | [] => Except.ok ()
  | f :: fs =>
    if score.hasKey f then checkFields i score fs
    else Except.error ("Score " ++ toString i ++ " missing required field: " ++ f)

/-- Validation and reconciliation of one score entry, scoring_engine.py
lines 235-272: the entry must be a dict carrying the four required
fields; its mark is then reconciled in place. -/
def validateEntry (i : Nat) (score : PyVal) : Except String PyVal :=
  if !score.isDict then
    Except.error ("Score " ++ toString i ++ " should be a dictionary with the required fields")
  else
    match checkFields i score requiredFields with
    | Except.error e => Except.error e
    | Except.ok _ => Except.ok (reconcileEntry score)

/-- The enumerate loop of scoring_engine.py lines 235-272 over the scores
array, threading the index used in diagnostics. -/
def validateScores (i : Nat) : List PyVal → Except String (List PyVal)
  | [] => Except.ok []
  | s :: ss =>
    match validateEntry i s with
    | Except.error e => Except.error e
    | Except.ok s2 =>
      match validateScores (i + 1) ss with
      | Except.error e => Except.error e
      | Except.ok ss2 => Except.ok (s2 :: ss2)

/-- The placeholder feedback string, scoring_engine.py lines 199-200. -/
def placeholder : PyVal := PyVal.str "Feedback generation pending"

/-- Padding of a feedback list to length 2, scoring_engine.py lines
217-220 and 228-231: when fewer than 2 items exist, append as many
placeholders as needed; longer lists are untouched. -/
def padTo2 (xs : List PyVal) : List PyVal :=
  if xs.length < 2 then xs ++ List.replicate (2 - xs.length) placeholder else xs

/-- Feedback repair, scoring_engine.py lines 186-231: a missing or
non-dict feedback value is replaced by the two placeholder lists; a
present dict has its positive and negative entries coerced to lists
(treating a missing or non-list value as empty) and padded to length 2. -/
def fixFeedback (result : PyVal) : PyVal :=
  match result.lookup "feedback" with
  | some (PyVal.dict fkvs) =>
    let fb := PyVal.dict fkvs
    let pos :=
      match fb.lookup "positive" with
      | some (PyVal.list xs) => xs
      | _ => []
    let neg :=
      match fb.lookup "negative" with
      | some (PyVal.list xs) => xs
      | _ => []
    result.set "feedback"
      ((fb.set "positive" (PyVal.list (padTo2 pos))).set "negative" (PyVal.list (padTo2 neg)))
  | _ =>
    result.set "feedback"
      (PyVal.dict [("positive", PyVal.list [placeholder, placeholder]),
                   ("negative", PyVal.list [placeholder, placeholder])])

/-- Validation, repair and reconciliation of a parsed LLM reply,
scoring_engine.py lines 154-275: top-level shape checks (dict, scores key,
list, exactly 7 entries, first entry not a bare number), then feedback
repair, then the per-entry validation and mark-reconciliation loop.
Except.error models the ValueError raises; message texts are abridged
where the source interpolates runtime values. -/
def analyze_transcript_with_llm (result : PyVal) : Except String PyVal :=
  if !result.isDict then
    Except.error "Invalid response format: expected dict"
  else
    match result.lookup "scores" with
    | none => Except.error "Invalid response format: scores key not found"
    | some scoresVal =>
      match scoresVal with
      | PyVal.list scores =>
        if scores.length != 7 then
          Except.error ("Expected 7 scores, got " ++ toString scores.length)
        else if scores != [] && (scores.headD PyVal.null).isNumber then
          Except.error "Invalid response format: scores should be a list of objects with criterion, level, mark, and justification fields. Got a list of numbers instead."
        else
          let result1 := fixFeedback result
          match validateScores 0 scores with
          | Except.error e => Except.error e
          | Except.ok scores2 => Except.ok (result1.set "scores" (PyVal.list scores2))
      | _ => Except.error "Invalid response format: scores should be a list"

/-! ### Score aggregation (scoring_engine.py, generate_score, lines 342-418) -/

/-- Whitespace per Python str.strip and str.split with no argument
(space, tab, newline, carriage return, vertical tab, form feed). -/
def pyIsSpace (c : Char) : Bool :=
  c == ' ' || c == '\t' || c == '\n' || c == '\r' || c == '\x0b' || c == '\x0c'

/-- Python str.strip: remove leading and trailing whitespace. -/
def pyStrip (s : String) : String :=
  String.mk (((s.data.dropWhile pyIsSpace).reverse.dropWhile pyIsSpace).reverse)

/-- Word counting on a character list: the flag records whether the scan
is inside a word, so each maximal non-whitespace run counts once. -/
def countWordsAux : List Char → Bool → Nat
  | [], _ => 0
  | c :: cs, inWord =>
    if pyIsSpace c then countWordsAux cs false
    else (if inWord then 0 else 1) + countWordsAux cs true

/-- Length of Python str.split with no argument: the number of maximal
non-whitespace runs. -/
def pyWordCount (s : String) : Nat :=
  countWordsAux s.data false

/-- Sum of the mark fields, scoring_engine.py line 368 (score.get with
default 0); Option.none models the TypeError Python raises when a mark is
not a number. -/
def sumMarks : List PyVal → Option ℚ
  | [] => some 0
  | s :: ss =>
    match (s.getD "mark" (PyVal.num 0)).asNum, sumMarks ss with
    | some q, some r => some (q + r)
    | _, _ => none

/-- Rendering of a Python number in an f-string for the grade text: an
integral value prints without a decimal point (marks are integers
throughout the rubric, so the aggregate is integral on every reconciled
reply). -/
def pyNumStr (q : ℚ) : String :=
  if q.den = 1 then toString q.num else toString q

/-- One display category, scoring_engine.py lines 391-397: the dict
appended for each score item (name, score, max_score, level, details). -/
structure Category where
  name : PyVal
  score : PyVal
  max_score : ℤ
  level : PyVal
  details : PyVal
deriving Repr, DecidableEq, Inhabited

/-- Category construction, scoring_engine.py lines 378-397: read the entry
fields with their defaults and look the criterion maximum up in the rubric
(default 4), exactly as the loop at lines 385-389 does. -/
def mkCategory (score_item : PyVal) : Category :=
  { name := score_item.getD "criterion" (PyVal.str "Unknown")
    score := score_item.getD "mark" (PyVal.num 0)
    max_score := maxScoreFor (score_item.getD "criterion" (PyVal.str "Unknown"))
    level := score_item.getD "level" (PyVal.str "Poor")
    details := score_item.getD "justification" (PyVal.str "") }

/-- The dict returned by generate_score, scoring_engine.py lines 405-418
(the metadata sub-dict is flattened into the preview field). -/
structure ScoreData where
  overall_grade : String
  total_score : ℚ
  max_score : ℚ
  percentage : ℚ
  categories : List Category
  scores : List PyVal
  feedback : PyVal
  transcript_length : Nat
  word_count : Nat
  transcript_preview : String
deriving Repr, DecidableEq, Inhabited

/-- The default feedback value used by analysis_result.get at
scoring_engine.py lines 400-403. -/
def defaultFeedback : PyVal :=
  PyVal.dict [("positive", PyVal.list [placeholder, placeholder]),
              ("negative", PyVal.list [placeholder, placeholder])]

/-- Score generation, scoring_engine.py lines 342-418: basic transcript
metrics, LLM analysis of the reply (here passed as the already parsed
reply `llmReply`), aggregation of the marks, the grade string, the display
categories and the preview. -/
def generate_score (transcript_text : String) (llmReply : PyVal) : Except String ScoreData :=
  let word_count := pyWordCount transcript_text
  let char_count := transcript_text.length
  match analyze_transcript_with_llm llmReply with
  | Except.error e => Except.error e
  | Except.ok analysis_result =>
    let scores :=
      match analysis_result.lookup "scores" with
      | some (PyVal.list xs) => xs
      | _ => []
    match sumMarks scores with
    | none => Except.error "TypeError: unsupported operand type in sum"
    | some total_score =>
      let max_score : ℚ := 20
      let percentage := if max_score > 0 then total_score / max_score * 100 else 0
      let final_grade := pyNumStr total_score ++ "/" ++ pyNumStr max_score
      Except.ok
        { overall_grade := final_grade
          total_score := total_score
          max_score := max_score
          percentage := percentage
          categories := scores.map mkCategory
          scores := scores
          feedback := analysis_result.getD "feedback" defaultFeedback
          transcript_length := char_count
          word_count := word_count
          transcript_preview :=
            if transcript_text.length > 200 then transcript_text.take 200 ++ "..."
            else transcript_text }

/-! ### Scorecard API (scorecard_api.py, generate_scorecard, lines 63-230) -/

/-- The outcome fields of generate_scorecard relevant to scoring; the
HTML/PDF rendering and file saving are collaborator glue outside the
embedding. -/
structure ScorecardResult where
  success : Bool
  error : Option String
  score_data : Option ScoreData
deriving Repr, DecidableEq, Inhabited

/-- Input validation and scoring step of scorecard_api.generate_scorecard,
lines 106-230: an empty or whitespace-only transcript returns the failure
dict before anything else runs; otherwise the LLM-backed generate_score is
invoked and a ValueError from it is turned into a failure dict. `llmReply`
stands for the parsed reply the LLM collaborator would return; the second
component counts how many scoring (LLM) calls were made. -/
def generate_scorecard (transcript_text : String) (llmReply : PyVal) :
    ScorecardResult × Nat :=
  if transcript_text = "" || pyStrip transcript_text = "" then
    ({ success := false
       error := some "Transcript text is empty or invalid"
       score_data := none }, 0)
  else
    match generate_score transcript_text llmReply with
    | Except.ok sd => ({ success := true, error := none, score_data := some sd }, 1)
    | Except.error e => ({ success := false, error := some e, score_data := none }, 1)

/-! ### Report section split (output_generator.py, create_html_output) -/

/-- The report section split of output_generator.create_html_output, lines
318-320: role_based_criteria = categories[0:3] and cultural_fit_criteria
= categories[3:], taken from score_data (line 139); the surrounding HTML
templating is presentational and elided. -/
def create_html_output_sections (score_data : ScoreData) : List Category × List Category :=
  let categories := score_data.categories
  (categories.take 3, categories.drop 3)

/-! ### Live question-suggestion session
(question_generation/main.py and question_generation/question_generation.py)

Strings of the live session are modelled as lists of characters (a Python
str is a sequence of code points, and the handler slices it by index).
main.py keeps the session context in module-level global variables
(TRANSCRIPT, CV, JOB_OFFER, COMPANY_VALUES, lines 9-19): there is one such
state for the whole process, shared by every websocket connection, and the
state below models exactly that. -/

/-- The module-level mutable globals of main.py lines 9-19 (lists of
characters for Python strings). -/
structure QGState where
  TRANSCRIPT : List Char
  CV : List Char
  JOB_OFFER : List Char
  COMPANY_VALUES : List Char
deriving Repr, DecidableEq, Inhabited

/-- The initial values of the globals: all empty strings. -/
def initQGState : QGState :=
  { TRANSCRIPT := [], CV := [], JOB_OFFER := [], COMPANY_VALUES := [] }

/-- Python negative-start slicing s[-n:]: the last min(len(s), n)
characters of s. -/
def pySliceLast (n : Nat) (s : List Char) : List Char :=
  s.drop (s.length - n)

/-- Number of parameters declared by question_generation.py line 73:
async def generate_questions_online(model, context, transcript). -/
def generate_questions_online_paramCount : Nat := 3

/-- Number of arguments passed at the call site main.py line 50:
generate_questions.generate_questions_online(model, context). -/
def transcript_chunk_call_argCount : Nat := 2

/-- Outbound websocket messages of the TRANSCRIPT_CHUNK handler. -/
inductive OutEvent where
  | newSuggestedQuestion (payload : List Char)
deriving Repr, DecidableEq

/-- TRANSCRIPT_CHUNK handling, main.py lines 43-51: append the payload to
the global TRANSCRIPT, truncate it to its last 500 characters, build the
context string, and call generate_questions_online to emit a
NEW_SUGGESTED_QUESTION. Python binds call arguments before running the
callee, so when the argument count at the call site differs from the
parameter count of the callee the call raises TypeError instead of
producing a question; `suggestNextQuestion` is the oracle standing for the
LLM-backed body of generate_questions_online. -/
def handle_transcript_chunk (st : QGState) (payload : List Char)
    (suggestNextQuestion : List Char → List Char) : QGState × Except String OutEvent :=
  let st1 := { st with TRANSCRIPT := pySliceLast 500 (st.TRANSCRIPT ++ payload) }
  let context :=
    "#Job offer : ".data ++ st1.JOB_OFFER ++
    "\n\n#Company values : ".data ++ st1.COMPANY_VALUES ++
    "\n\n#Candidate profile : ".data ++ st1.CV ++
    "\n\n#Transcript : ".data ++ st1.TRANSCRIPT
  if transcript_chunk_call_argCount = generate_questions_online_paramCount then
    (st1, Except.ok (OutEvent.newSuggestedQuestion (suggestNextQuestion context)))
  else
    (st1, Except.error "TypeError: generate_questions_online missing 1 required positional argument: transcript")

/-! ### Derived predicates used to state the properties -/

/-- An Except value carrying an error. -/
def isErr {α : Type} : Except String α → Bool
  | Except.error _ => true
  | Except.ok _ => false

/-- One score entry passes the per-entry validation of scoring_engine.py
lines 239-247: a dict carrying the four required fields. -/
def entryOK (x : PyVal) : Bool :=
  x.isDict && requiredFields.all (fun f => x.hasKey f)

/-- The scores array of a reply (empty when absent or not a list). -/
def scoresOf (reply : PyVal) : List PyVal :=
  match reply.lookup "scores" with
  | some (PyVal.list xs) => xs
  | _ => []

/-- A reply passes every fatal check of analyze_transcript_with_llm: it is
a dict whose scores key holds a list of exactly 7 entries, each a dict
carrying the four required fields. Note that this predicate does not
mention the feedback key at all. -/
def scoresShapeOK (reply : PyVal) : Bool :=
  reply.isDict &&
  (match reply.lookup "scores" with
   | some (PyVal.list xs) => xs.length == 7 && xs.all (fun x => entryOK x)
   | _ => false)

/-- A reply violates one of the top-level shape requirements named by the
specification: not a mapping, no scores key, scores not a sequence, scores
of length other than 7, or some scores entry a bare number. -/
def badShape (reply : PyVal) : Bool :=
  !reply.isDict ||
  (match reply.lookup "scores" with
   | some (PyVal.list xs) => xs.length != 7 || xs.any (fun x => x.isNumber)
   | some _ => true
   | none => true)

/-- The positive or negative list the reply itself supplied: the feedback
sub-dict value at the key when it is a list, and the empty list when the
feedback mapping, or that key, is missing or wrongly typed. -/
def suppliedFeedbackList (reply : PyVal) (key : String) : List PyVal :=
  match reply.lookup "feedback" with
  | some (PyVal.dict fkvs) =>
    match (PyVal.dict fkvs).lookup key with
    | some (PyVal.list xs) => xs
    | _ => []
  | _ => []

/-- The level field is one of the three rubric levels. -/
def levelValid (e : PyVal) : Bool :=
  e.getD "level" PyVal.null == PyVal.str "Poor" ||
  e.getD "level" PyVal.null == PyVal.str "Basic" ||
  e.getD "level" PyVal.null == PyVal.str "Advanced"

/-- Position by position, each score entry names the criterion of the
rubric item at its index. -/
def criteriaMatchRubric (scores : List PyVal) : Bool :=
  (List.zip scores SCORING_RUBRIC).all
    (fun p => p.1.getD "criterion" (PyVal.str "") == PyVal.str p.2.criterion)

/-! ### Concrete inputs used by witnesses and counterexamples -/

/-- A score entry literal. -/
def mkEntry (c lvl : String) (mark : ℚ) (j : String) : PyVal :=
  PyVal.dict [("criterion", PyVal.str c), ("level", PyVal.str lvl),
              ("mark", PyVal.num mark), ("justification", PyVal.str j)]

/-- A well-formed reply: the 7 rubric criteria in order, several marks
deliberately inconsistent with their level, a 1-element positive feedback
list and a wrongly typed negative feedback value. -/
def replyGood : PyVal :=
  PyVal.dict
    [("scores", PyVal.list
      [mkEntry "Analytical thinking and problem solving" "Advanced" 4 "a",
       mkEntry "Mastering analytical toolset (Python, ...)" "Basic" 2 "b",
       mkEntry "Communication with stakeholders" "Poor" 5 "c",
       mkEntry "Ambition / High standards" "Basic" 3 "d",
       mkEntry "Curiosity" "Advanced" 2 "e",
       mkEntry "Honesty / Integrity" "Poor" 0 "f",
       mkEntry "Work ethic" "Basic" 1 "g"]),
     ("feedback", PyVal.dict
       [("positive", PyVal.list [PyVal.str "great communication"]),
        ("negative", PyVal.str "not a list")])]

/-- A reply whose scores array is 5 bare numbers: wrong length and wrong
element type at once. -/
def replyLen5 : PyVal :=
  PyVal.dict [("scores", PyVal.list
    [PyVal.num 4, PyVal.num 2, PyVal.num 4, PyVal.num 2, PyVal.num 1])]

/-- A shape-valid reply whose first entry carries the unknown level
Excellent with mark 99; the remaining entries are Poor. -/
def replyRogue : PyVal :=
  PyVal.dict
    [("scores", PyVal.list
      [mkEntry "Analytical thinking and problem solving" "Excellent" 99 "a",
       mkEntry "Mastering analytical toolset (Python, ...)" "Poor" 0 "b",
       mkEntry "Communication with stakeholders" "Poor" 0 "c",
       mkEntry "Ambition / High standards" "Poor" 0 "d",
       mkEntry "Curiosity" "Poor" 0 "e",
       mkEntry "Honesty / Integrity" "Poor" 0 "f",
       mkEntry "Work ethic" "Poor" 0 "g"])]

/-- A shape-valid reply with valid levels whose criterion names match no
rubric criterion: every entry reconciles against the default maximum of 4,
so all 7 Advanced entries reconcile to mark 4 and the total is 28. -/
def replyOver : PyVal :=
  PyVal.dict
    [("scores", PyVal.list
      [mkEntry "X1" "Advanced" 4 "a", mkEntry "X2" "Advanced" 4 "b",
       mkEntry "X3" "Advanced" 4 "c", mkEntry "X4" "Advanced" 4 "d",
       mkEntry "X5" "Advanced" 4 "e", mkEntry "X6" "Advanced" 4 "f",
       mkEntry "X7" "Advanced" 4 "g"])]

/-- A display category literal for the report-splitting witness. -/
def mkCat (n : String) : Category :=
  { name := PyVal.str n, score := PyVal.num 0, max_score := 4,
    level := PyVal.str "Poor", details := PyVal.str "" }

/-- A score-data value with 7 display categories. -/
def sdSeven : ScoreData :=
  { overall_grade := "0/20", total_score := 0, max_score := 20, percentage := 0,
    categories := [mkCat "c0", mkCat "c1", mkCat "c2", mkCat "c3",
                   mkCat "c4", mkCat "c5", mkCat "c6"],
    scores := [], feedback := defaultFeedback, transcript_length := 0,
    word_count := 0, transcript_preview := "" }

/-- The reconciled scores of replyGood: entry 2 has its mark forced from 5
to 0 (Poor), entry 3 from 3 to 1 (Basic on a maximum of 2); the rest
already agree with their level. -/
def scoresGoodReconciled : List PyVal :=
  [mkEntry "Analytical thinking and problem solving" "Advanced" 4 "a",
   mkEntry "Mastering analytical toolset (Python, ...)" "Basic" 2 "b",
   mkEntry "Communication with stakeholders" "Poor" 0 "c",
   mkEntry "Ambition / High standards" "Basic" 1 "d",
   mkEntry "Curiosity" "Advanced" 2 "e",
   mkEntry "Honesty / Integrity" "Poor" 0 "f",
   mkEntry "Work ethic" "Basic" 1 "g"]

/-- The repaired feedback of replyGood: the 1-element positive list padded
with one placeholder, the wrongly typed negative value replaced by two
placeholders. -/
def feedbackGoodFixed : PyVal :=
  PyVal.dict [("positive", PyVal.list [PyVal.str "great communication", placeholder]),
              ("negative", PyVal.list [placeholder, placeholder])]

/-- The full validated-and-repaired result for replyGood. -/
def resultGood : PyVal :=
  PyVal.dict [("scores", PyVal.list scoresGoodReconciled),
              ("feedback", feedbackGoodFixed)]

/-- The score data generate_score produces for the transcript
"hello world" and the reply replyGood: marks 4+2+0+1+2+0+1 = 10. -/
def sdGood : ScoreData :=
  { overall_grade := "10/20", total_score := 10, max_score := 20, percentage := 50,
    categories := scoresGoodReconciled.map mkCategory,
    scores := scoresGoodReconciled,
    feedback := feedbackGoodFixed,
    transcript_length := 11, word_count := 2, transcript_preview := "hello world" }

/-- The total score carried by a successful scoring outcome (-1 on
error). -/
def totalScoreOf (r : Except String ScoreData) : ℚ :=
  match r with
  | Except.ok sd => sd.total_score
  | Except.error _ => -1

/-! ### Lemmas: dict lookup and update -/

theorem lookup_set_self (kvs : List (String × PyVal)) (k : String) (x : PyVal) :
    ((PyVal.dict kvs).set k x).lookup k = some x := by
  show (PyVal.dict (setPair kvs k x)).lookup k = some x
  unfold setPair
  by_cases hany : kvs.any (fun p => p.1 == k) = true
  · rw [if_pos hany]
    show ((kvs.map fun p => if p.1 == k then (k, x) else p).find?
        (fun p => p.1 == k)).map (fun p => p.2) = some x
    rw [List.find?_map]
    have hpf : ((fun p : String × PyVal => p.1 == k) ∘
        (fun p => if p.1 == k then (k, x) else p)) = (fun p : String × PyVal => p.1 == k) := by
      funext p
      by_cases h : (p.1 == k) = true <;> simp [Function.comp, h]
    rw [hpf]
    obtain ⟨q, hq, hqk⟩ := List.any_eq_true.mp hany
    have hsome : (kvs.find? (fun p => p.1 == k)).isSome := by
      rw [List.find?_isSome]; exact ⟨q, hq, hqk⟩
    obtain ⟨r, hr⟩ := Option.isSome_iff_exists.mp hsome
    have hr1 : r.1 = k := by simpa using List.find?_some hr
    rw [hr]
    simp [hr1]
  · rw [if_neg hany]
    show ((kvs ++ [(k, x)]).find? (fun p => p.1 == k)).map (fun p => p.2) = some x
    rw [List.find?_append]
    have hnone : kvs.find? (fun p => p.1 == k) = none := by
      rw [List.find?_eq_none]
      intro p hp hpk
      exact hany (List.any_eq_true.mpr ⟨p, hp, hpk⟩)
    simp [hnone]

theorem lookup_set_ne (v : PyVal) (k k2 : String) (x : PyVal) (hne : k2 ≠ k) :
    (v.set k x).lookup k2 = v.lookup k2 := by
  cases v with
  | dict kvs =>
    show (PyVal.dict (setPair kvs k x)).lookup k2 = (PyVal.dict kvs).lookup k2
    unfold setPair
    by_cases hany : kvs.any (fun p => p.1 == k) = true
    · rw [if_pos hany]
      show ((kvs.map fun p => if p.1 == k then (k, x) else p).find?
          (fun p => p.1 == k2)).map (fun p => p.2)
          = (kvs.find? (fun p => p.1 == k2)).map (fun p => p.2)
      rw [List.find?_map]
      have hpf : ((fun p : String × PyVal => p.1 == k2) ∘
          (fun p => if p.1 == k then (k, x) else p))
          = (fun p : String × PyVal => p.1 == k2) := by
        funext p
        by_cases h : (p.1 == k) = true
        · have hp : p.1 = k := by simpa using h
          simp [Function.comp, h, hp]
        · simp [Function.comp, h]
      rw [hpf]
      cases hf : kvs.find? (fun p => p.1 == k2) with
      | none => simp
      | some q =>
        have hq2 : q.1 = k2 := by simpa using List.find?_some hf
        have hq1 : ¬(q.1 = k) := by rw [hq2]; exact hne
        simp [hq1]
    · rw [if_neg hany]
      show ((kvs ++ [(k, x)]).find? (fun p => p.1 == k2)).map (fun p => p.2)
          = (kvs.find? (fun p => p.1 == k2)).map (fun p => p.2)
      rw [List.find?_append]
      have hone : [(k, x)].find? (fun p => p.1 == k2) = none := by
        simp [List.find?, beq_eq_false_iff_ne.mpr (fun h => hne h.symm)]
      simp [hone]
  | null => rfl
  | bool b => rfl
  | num q => rfl
  | str s => rfl
  | list xs => rfl

theorem set_isDict (v : PyVal) (k : String) (x : PyVal) (h : v.isDict = true) :
    ((v.set k x).isDict) = true := by
  cases v <;> simp_all [PyVal.set, PyVal.isDict]

theorem isDict_exists {v : PyVal} (h : v.isDict = true) :
    ∃ kvs, v = PyVal.dict kvs := by
  cases v <;> simp_all [PyVal.isDict]

theorem hasKey_getD {x : PyVal} {k : String} (h : x.hasKey k = true) (d : PyVal) :
    x.lookup k = some (x.getD k d) := by
  unfold PyVal.hasKey at h
  obtain ⟨v, hv⟩ := Option.isSome_iff_exists.mp h
  simp [PyVal.getD, hv]

/-! ### Lemmas: mark reconciliation -/

theorem reconcileMark_poor (mark : PyVal) (ms : ℤ) :
    reconcileMark (PyVal.str "Poor") mark ms = PyVal.num 0 := by
  by_cases h : mark = PyVal.num 0 <;> simp [reconcileMark, h]

theorem reconcileMark_basic4 (mark : PyVal) {ms : ℤ} (h4 : ms = 4) :
    reconcileMark (PyVal.str "Basic") mark ms = PyVal.num 2 := by
  subst h4
  by_cases h : mark = PyVal.num 2 <;> simp [reconcileMark, h]

theorem reconcileMark_basic2 (mark : PyVal) {ms : ℤ} (h2 : ms = 2) :
    reconcileMark (PyVal.str "Basic") mark ms = PyVal.num 1 := by
  subst h2
  by_cases h : mark = PyVal.num 1 <;> simp [reconcileMark, h]

theorem reconcileMark_advanced4 (mark : PyVal) {ms : ℤ} (h4 : ms = 4) :
    reconcileMark (PyVal.str "Advanced") mark ms = PyVal.num 4 := by
  subst h4
  by_cases h : mark = PyVal.num 4 <;> simp [reconcileMark, h]

theorem reconcileMark_advanced2 (mark : PyVal) {ms : ℤ} (h2 : ms = 2) :
    reconcileMark (PyVal.str "Advanced") mark ms = PyVal.num 2 := by
  subst h2
  by_cases h : mark = PyVal.num 2 <;> simp [reconcileMark, h]

theorem reconcileMark_unknown (level mark : PyVal) (ms : ℤ)
    (h1 : level ≠ PyVal.str "Poor") (h2 : level ≠ PyVal.str "Basic")
    (h3 : level ≠ PyVal.str "Advanced") :
    reconcileMark level mark ms = mark := by
  simp [reconcileMark, h1, h2, h3]

/-! ### Lemmas: criterion maximum lookup -/

theorem maxScoreFor_two_or_four (v : PyVal) :
    maxScoreFor v = 2 ∨ maxScoreFor v = 4 := by
  unfold maxScoreFor
  cases hf : SCORING_RUBRIC.find? (fun item => PyVal.str item.criterion == v) with
  | none => right; rfl
  | some item =>
    have hm := List.mem_of_find?_eq_some hf
    fin_cases hm <;> simp

theorem maxScoreFor_default (v : PyVal)
    (h : ∀ item ∈ SCORING_RUBRIC, PyVal.str item.criterion ≠ v) :
    maxScoreFor v = 4 := by
  unfold maxScoreFor
  have hn : SCORING_RUBRIC.find? (fun item => PyVal.str item.criterion == v) = none := by
    rw [List.find?_eq_none]
    intro it hit
    simpa using h it hit
  rw [hn]

/-! ### Lemmas: per-entry validation -/

theorem entryOK_isDict {x : PyVal} (h : entryOK x = true) : x.isDict = true := by
  unfold entryOK at h
  exact (Bool.and_eq_true _ _ ▸ h).1

theorem entryOK_hasKey {x : PyVal} (h : entryOK x = true) {f : String}
    (hf : f ∈ requiredFields) : x.hasKey f = true := by
  unfold entryOK at h
  have := (Bool.and_eq_true _ _ ▸ h).2
  rw [List.all_eq_true] at this
  exact this f hf

theorem entryOK_not_number {x : PyVal} (h : entryOK x = true) :
    x.isNumber = false := by
  have := entryOK_isDict h
  cases x <;> simp_all [PyVal.isDict, PyVal.isNumber]

theorem reconcileEntry_lookup_ne (e : PyVal) (k : String) (h : k ≠ "mark") :
    (reconcileEntry e).lookup k = e.lookup k := by
  unfold reconcileEntry
  exact lookup_set_ne e "mark" k _ h

theorem reconcileEntry_lookup_mark (e : PyVal) (hd : e.isDict = true) :
    (reconcileEntry e).lookup "mark"
      = some (reconcileMark (e.getD "level" PyVal.null) (e.getD "mark" PyVal.null)
          (maxScoreFor (e.getD "criterion" (PyVal.str "")))) := by
  obtain ⟨kvs, rfl⟩ := isDict_exists hd
  exact lookup_set_self kvs "mark" _

theorem checkFields_ok_iff (i : Nat) (x : PyVal) :
    ∀ fs : List String, checkFields i x fs = Except.ok () ↔ fs.all (fun f => x.hasKey f) = true
  | [] => by simp [checkFields]
  | f :: fs => by
    by_cases h : x.hasKey f = true <;>
      simp [checkFields, h, checkFields_ok_iff i x fs]

theorem validateEntry_ok_iff (i : Nat) (x y : PyVal) :
    validateEntry i x = Except.ok y ↔ (entryOK x = true ∧ y = reconcileEntry x) := by
  by_cases hd : x.isDict = true
  · by_cases hall : (requiredFields.all fun f => x.hasKey f) = true
    · have hcf := (checkFields_ok_iff i x requiredFields).mpr hall
      simp [validateEntry, hd, hcf, entryOK, hall, eq_comm]
    · have hne : checkFields i x requiredFields ≠ Except.ok () := fun hc =>
        hall ((checkFields_ok_iff i x requiredFields).mp hc)
      unfold validateEntry
      cases hcf : checkFields i x requiredFields with
      | ok u => cases u; exact absurd hcf hne
      | error e => simp [hd, entryOK, hall]

  · have hok : entryOK x = false := by simp [entryOK, hd]
    simp [validateEntry, hd, hok]

theorem validateScores_ok_of_all :
    ∀ (i : Nat) (xs : List PyVal), (∀ x ∈ xs, entryOK x = true) →
      validateScores i xs = Except.ok (xs.map reconcileEntry)
  | _, [], _ => rfl
  | i, x :: xs, h => by
    have hx : entryOK x = true := h x (by simp)
    have hve : validateEntry i x = Except.ok (reconcileEntry x) :=
      (validateEntry_ok_iff i x (reconcileEntry x)).mpr ⟨hx, rfl⟩
    have ih := validateScores_ok_of_all (i + 1) xs (fun y hy => h y (by simp [hy]))
    simp [validateScores, hve, ih]

theorem validateScores_ok_elim :
    ∀ (i : Nat) (xs ys : List PyVal), validateScores i xs = Except.ok ys →
      ys = xs.map reconcileEntry ∧ ∀ x ∈ xs, entryOK x = true
  | _, [], ys, h => by
    refine ⟨?_, by simp⟩
    simpa [validateScores] using h.symm
  | i, x :: xs, ys, h => by
    unfold validateScores at h
    cases hve : validateEntry i x with
    | error e => rw [hve] at h; cases h
    | ok x2 =>
      rw [hve] at h
      cases hvs : validateScores (i + 1) xs with
      | error e => rw [hvs] at h; cases h
      | ok ys2 =>
        rw [hvs] at h
        obtain ⟨hx, hx2⟩ := (validateEntry_ok_iff i x x2).mp hve
        obtain ⟨hys2, hall⟩ := validateScores_ok_elim (i + 1) xs ys2 hvs
        cases h
        constructor
        · simp [hx2, hys2]
        · intro z hz
          rcases List.mem_cons.mp hz with rfl | hmem
          · exact hx
          · exact hall z hmem

theorem validateScores_err_of_num :
    ∀ (i : Nat) (xs : List PyVal), (∃ x ∈ xs, x.isNumber = true) →
      isErr (validateScores i xs) = true
  | _, [], h => by simp at h
  | i, x :: xs, h => by
    rcases h with ⟨y, hy, hnum⟩
    rcases List.mem_cons.mp hy with rfl | hmem
    · have hnd : y.isDict = false := by
        cases y <;> simp_all [PyVal.isNumber, PyVal.isDict]
      unfold validateScores validateEntry
      simp [hnd, isErr]
    · cases hve : validateEntry i x with
      | error e => unfold validateScores; simp [hve, isErr]
      | ok x2 =>
        have ih := validateScores_err_of_num (i + 1) xs ⟨y, hmem, hnum⟩
        unfold validateScores
        rw [hve]
        cases hvs : validateScores (i + 1) xs with
        | error e => simp [isErr]
        | ok ys2 => rw [hvs] at ih; simp [isErr] at ih

/-! ### Lemmas: feedback repair -/

theorem padTo2_eq (xs : List PyVal) :
    padTo2 xs = xs ++ List.replicate (2 - xs.length) placeholder := by
  unfold padTo2
  split
  · rfl
  · rename_i h
    have h0 : 2 - xs.length = 0 := by omega
    simp [h0]

theorem padTo2_length (xs : List PyVal) : 2 ≤ (padTo2 xs).length := by
  unfold padTo2
  split
  · rename_i h
    simp
    omega
  · rename_i h
    omega

theorem fixFeedback_lookup_ne (reply : PyVal) (k : String) (h : k ≠ "feedback") :
    (fixFeedback reply).lookup k = reply.lookup k := by
  unfold fixFeedback
  cases hlk : reply.lookup "feedback" with
  | none => exact lookup_set_ne reply "feedback" k _ h
  | some fv => cases fv <;> exact lookup_set_ne reply "feedback" k _ h

theorem fixFeedback_isDict (reply : PyVal) (hd : reply.isDict = true) :
    (fixFeedback reply).isDict = true := by
  unfold fixFeedback
  cases hlk : reply.lookup "feedback" with
  | none => exact set_isDict _ _ _ hd
  | some fv => cases fv <;> exact set_isDict _ _ _ hd

theorem fixFeedback_spec (reply : PyVal) (hd : reply.isDict = true) :
    ∃ fb : PyVal, (fixFeedback reply).lookup "feedback" = some fb ∧
      fb.lookup "positive"
        = some (PyVal.list (padTo2 (suppliedFeedbackList reply "positive"))) ∧
      fb.lookup "negative"
        = some (PyVal.list (padTo2 (suppliedFeedbackList reply "negative"))) := by
  obtain ⟨kvs, rfl⟩ := isDict_exists hd
  cases hlk : (PyVal.dict kvs).lookup "feedback"
  case some fv =>
    cases fv
    case dict fkvs =>
      have hfix : fixFeedback (PyVal.dict kvs) = (PyVal.dict kvs).set "feedback"
          (((PyVal.dict fkvs).set "positive"
              (PyVal.list (padTo2 (suppliedFeedbackList (PyVal.dict kvs) "positive")))).set
            "negative"
            (PyVal.list (padTo2 (suppliedFeedbackList (PyVal.dict kvs) "negative")))) := by
        simp [fixFeedback, suppliedFeedbackList, hlk]
      rw [hfix]
      refine ⟨_, lookup_set_self kvs "feedback" _, ?_, ?_⟩
      · rw [lookup_set_ne _ "negative" "positive" _ (by decide)]
        exact lookup_set_self fkvs "positive" _
      · exact lookup_set_self _ "negative" _
    all_goals
      have hsp : suppliedFeedbackList (PyVal.dict kvs) "positive" = [] := by
        simp [suppliedFeedbackList, hlk]
      have hsn : suppliedFeedbackList (PyVal.dict kvs) "negative" = [] := by
        simp [suppliedFeedbackList, hlk]
      have hfix : fixFeedback (PyVal.dict kvs) = (PyVal.dict kvs).set "feedback"
          (PyVal.dict [("positive", PyVal.list [placeholder, placeholder]),
                       ("negative", PyVal.list [placeholder, placeholder])]) := by
        simp [fixFeedback, hlk]
      rw [hsp, hsn, hfix]
      refine ⟨_, lookup_set_self kvs "feedback" _, ?_, ?_⟩ <;>
        simp [PyVal.lookup, List.find?, padTo2, placeholder]
  case none =>
    have hsp : suppliedFeedbackList (PyVal.dict kvs) "positive" = [] := by
      simp [suppliedFeedbackList, hlk]
    have hsn : suppliedFeedbackList (PyVal.dict kvs) "negative" = [] := by
      simp [suppliedFeedbackList, hlk]
    have hfix : fixFeedback (PyVal.dict kvs) = (PyVal.dict kvs).set "feedback"
        (PyVal.dict [("positive", PyVal.list [placeholder, placeholder]),
                     ("negative", PyVal.list [placeholder, placeholder])]) := by
      simp [fixFeedback, hlk]
    rw [hsp, hsn, hfix]
    refine ⟨_, lookup_set_self kvs "feedback" _, ?_, ?_⟩ <;>
      simp [PyVal.lookup, List.find?, padTo2, placeholder]

/-! ### Lemmas: reply analysis characterization -/

theorem analyze_ok_of_shape (reply : PyVal) (h : scoresShapeOK reply = true) :
    analyze_transcript_with_llm reply =
      Except.ok ((fixFeedback reply).set "scores"
        (PyVal.list ((scoresOf reply).map reconcileEntry))) := by
  unfold scoresShapeOK at h
  have hd : reply.isDict = true := (Bool.and_eq_true _ _ ▸ h).1
  have hs := (Bool.and_eq_true _ _ ▸ h).2
  cases hlk : reply.lookup "scores" with
  | none => rw [hlk] at hs; cases hs
  | some sv =>
    rw [hlk] at hs
    cases sv with
    | list xs =>
      have hs2 : ((xs.length == 7) && xs.all fun x => entryOK x) = true := hs
      have hlen : xs.length = 7 := by
        have := (Bool.and_eq_true _ _ ▸ hs2).1
        simpa using this
      have hall : ∀ x ∈ xs, entryOK x = true := by
        have := (Bool.and_eq_true _ _ ▸ hs2).2
        simpa [List.all_eq_true] using this
      have hheadf : ((xs.head?.getD PyVal.null).isNumber) = false := by
        cases xs with
        | nil => simp at hlen
        | cons a t => simpa using entryOK_not_number (hall a (by simp))
      have hvs := validateScores_ok_of_all 0 xs hall
      have hsc : scoresOf reply = xs := by simp [scoresOf, hlk]
      have hlen' : (xs.length != 7) = false := by simp [hlen]
      simp [analyze_transcript_with_llm, hd, hlk, hlen', hheadf, hvs, hsc]
    | null => simp at hs
    | bool b => simp at hs
    | num q => simp at hs
    | str s => simp at hs
    | dict d => simp at hs

theorem validateScores_err_of_notOK :
    ∀ (i : Nat) (xs : List PyVal), (∃ x ∈ xs, entryOK x = false) →
      isErr (validateScores i xs) = true
  | _, [], h => by simp at h
  | i, x :: xs, h => by
    rcases h with ⟨y, hy, hbad⟩
    rcases List.mem_cons.mp hy with rfl | hmem
    · cases hve : validateEntry i y with
      | error e => unfold validateScores; simp [hve, isErr]
      | ok y2 =>
        have := ((validateEntry_ok_iff i y y2).mp hve).1
        rw [this] at hbad
        cases hbad
    · cases hve : validateEntry i x with
      | error e => unfold validateScores; simp [hve, isErr]
      | ok x2 =>
        have ih := validateScores_err_of_notOK (i + 1) xs ⟨y, hmem, hbad⟩
        unfold validateScores
        rw [hve]
        cases hvs : validateScores (i + 1) xs with
        | error e => simp [isErr]
        | ok ys2 => rw [hvs] at ih; simp [isErr] at ih

theorem analyze_err_of_not_shape (reply : PyVal) (h : scoresShapeOK reply = false) :
    isErr (analyze_transcript_with_llm reply) = true := by
  by_cases hd : reply.isDict = true
  · cases hlk : reply.lookup "scores" with
    | none => simp [analyze_transcript_with_llm, hd, hlk, isErr]
    | some sv =>
      cases sv with
      | list xs =>
        have hm : ((xs.length == 7) && xs.all fun x => entryOK x) = false := by
          have := h
          unfold scoresShapeOK at this
          rw [hlk] at this
          simpa [hd] using this
        by_cases hlen : xs.length = 7
        · have hall : (xs.all fun x => entryOK x) = false := by
            simpa [hlen] using hm
          have hex : ∃ y ∈ xs, entryOK y = false := by
            rcases List.all_eq_false.mp hall with ⟨y, hy, hb⟩
            exact ⟨y, hy, (Bool.not_eq_true _).mp hb⟩
          obtain ⟨y, hy, hbad⟩ := hex
          have hlen' : (xs.length != 7) = false := by simp [hlen]
          by_cases hhead : ((xs != []) && (xs.headD PyVal.null).isNumber) = true
          · have hcond : ¬xs = [] ∧ (xs.head?.getD PyVal.null).isNumber = true := by
              simpa using hhead
            simp [analyze_transcript_with_llm, hd, hlk, hlen', isErr, hcond]
          · have hcond : ¬(¬xs = [] ∧ (xs.head?.getD PyVal.null).isNumber = true) := by
              simpa using hhead
            have hvserr := validateScores_err_of_notOK 0 xs ⟨y, hy, hbad⟩
            cases hvs : validateScores 0 xs with
            | error e => simp [analyze_transcript_with_llm, hd, hlk, hlen', hcond, hvs, isErr]
            | ok ys => rw [hvs] at hvserr; simp [isErr] at hvserr
        · have hlen' : (xs.length != 7) = true := by simpa using hlen
          simp [analyze_transcript_with_llm, hd, hlk, hlen', isErr]
      | null => simp [analyze_transcript_with_llm, hd, hlk, isErr]
      | bool b => simp [analyze_transcript_with_llm, hd, hlk, isErr]
      | num q => simp [analyze_transcript_with_llm, hd, hlk, isErr]
      | str s => simp [analyze_transcript_with_llm, hd, hlk, isErr]
      | dict d => simp [analyze_transcript_with_llm, hd, hlk, isErr]
  · have hd2 : reply.isDict = false := by
      cases hq : reply.isDict
      · rfl
      · exact absurd hq hd
    simp [analyze_transcript_with_llm, hd2, isErr]

theorem analyze_ok_elim (reply result : PyVal)
    (h : analyze_transcript_with_llm reply = Except.ok result) :
    scoresShapeOK reply = true ∧
      result = (fixFeedback reply).set "scores"
        (PyVal.list ((scoresOf reply).map reconcileEntry)) := by
  by_cases hshape : scoresShapeOK reply = true
  · have heq := analyze_ok_of_shape reply hshape
    rw [heq] at h
    refine ⟨hshape, ?_⟩
    have := Except.ok.inj h
    exact this.symm
  · have hf : scoresShapeOK reply = false := by
      cases hq : scoresShapeOK reply
      · rfl
      · exact absurd hq hshape
    have herr := analyze_err_of_not_shape reply hf
    rw [h] at herr
    simp [isErr] at herr

/-! ### Lemmas: score aggregation -/

theorem generate_score_ok_elim (t : String) (reply : PyVal) (sd : ScoreData)
    (h : generate_score t reply = Except.ok sd) :
    scoresShapeOK reply = true ∧
      sd.scores = (scoresOf reply).map reconcileEntry ∧
      sumMarks sd.scores = some sd.total_score ∧
      sd.max_score = 20 ∧
      sd.percentage = sd.total_score / 20 * 100 ∧
      sd.overall_grade = pyNumStr sd.total_score ++ "/" ++ pyNumStr 20 ∧
      sd.categories = sd.scores.map mkCategory := by
  cases han : analyze_transcript_with_llm reply with
  | error e =>
    unfold generate_score at h
    rw [han] at h
    cases h
  | ok ar =>
    obtain ⟨hshape, har⟩ := analyze_ok_elim reply ar han
    have hdr : reply.isDict = true := by
      unfold scoresShapeOK at hshape
      exact (Bool.and_eq_true _ _ ▸ hshape).1
    obtain ⟨fkvs, hfk⟩ := isDict_exists (fixFeedback_isDict reply hdr)
    have hsc : ar.lookup "scores" = some (PyVal.list ((scoresOf reply).map reconcileEntry)) := by
      rw [har, hfk]
      exact lookup_set_self fkvs "scores" _
    simp only [generate_score, han, hsc] at h
    cases hsum : sumMarks ((scoresOf reply).map reconcileEntry) with
    | none => rw [hsum] at h; cases h
    | some total =>
      rw [hsum] at h
      have hsd := Except.ok.inj h
      have h20 : (0 : ℚ) < 20 := by norm_num
      refine ⟨hshape, ?_, ?_, ?_, ?_, ?_, ?_⟩ <;> rw [← hsd] <;> simp [hsum, h20]

theorem reconciled_mark_of_valid (x : PyVal) (hOK : entryOK x = true)
    (hlv : levelValid (reconcileEntry x) = true) :
    ∃ m : ℚ, (reconcileEntry x).getD "mark" (PyVal.num 0) = PyVal.num m ∧
      0 ≤ m ∧ m ≤ ((maxScoreFor (x.getD "criterion" (PyVal.str "")) : ℤ) : ℚ) := by
  have hd := entryOK_isDict hOK
  have hmark := reconcileEntry_lookup_mark x hd
  have hgd : (reconcileEntry x).getD "mark" (PyVal.num 0)
      = reconcileMark (x.getD "level" PyVal.null) (x.getD "mark" PyVal.null)
          (maxScoreFor (x.getD "criterion" (PyVal.str ""))) := by
    simp [PyVal.getD, hmark]
  have hlveq : (reconcileEntry x).getD "level" PyVal.null = x.getD "level" PyVal.null := by
    simp [PyVal.getD, reconcileEntry_lookup_ne x "level" (by decide)]
  have hlv2 : x.getD "level" PyVal.null = PyVal.str "Poor" ∨
      x.getD "level" PyVal.null = PyVal.str "Basic" ∨
      x.getD "level" PyVal.null = PyVal.str "Advanced" := by
    have h3 := hlv
    unfold levelValid at h3
    rw [hlveq] at h3
    have h4 : (x.getD "level" PyVal.null = PyVal.str "Poor" ∨
        x.getD "level" PyVal.null = PyVal.str "Basic") ∨
        x.getD "level" PyVal.null = PyVal.str "Advanced" := by simpa using h3
    tauto
  rcases maxScoreFor_two_or_four (x.getD "criterion" (PyVal.str "")) with hm | hm <;>
    rcases hlv2 with hl | hl | hl
  · exact ⟨0, by rw [hgd, hl, reconcileMark_poor], le_refl 0, by rw [hm]; norm_num⟩
  · exact ⟨1, by rw [hgd, hl, reconcileMark_basic2 _ hm], by norm_num, by rw [hm]; norm_num⟩
  · exact ⟨2, by rw [hgd, hl, reconcileMark_advanced2 _ hm], by norm_num, by rw [hm]; norm_num⟩
  · exact ⟨0, by rw [hgd, hl, reconcileMark_poor], le_refl 0, by rw [hm]; norm_num⟩
  · exact ⟨2, by rw [hgd, hl, reconcileMark_basic4 _ hm], by norm_num, by rw [hm]; norm_num⟩
  · exact ⟨4, by rw [hgd, hl, reconcileMark_advanced4 _ hm], by norm_num, by rw [hm]; norm_num⟩

theorem list_len7 {α : Type} (l : List α) (h : l.length = 7) :
    ∃ a b c d e f g, l = [a, b, c, d, e, f, g] := by
  rcases l with _ | ⟨a, _ | ⟨b, _ | ⟨c, _ | ⟨d, _ | ⟨e, _ | ⟨f, _ | ⟨g, _ | ⟨x, t⟩⟩⟩⟩⟩⟩⟩⟩ <;>
    simp_all

theorem badShape_shape_false (reply : PyVal) (h : badShape reply = true) :
    scoresShapeOK reply = false := by
  by_cases hd : reply.isDict = true
  · cases hlk : reply.lookup "scores" with
    | none => simp [scoresShapeOK, hd, hlk]
    | some sv =>
      cases sv with
      | list xs =>
        have h2 : ((xs.length != 7) || xs.any fun x => x.isNumber) = true := by
          have h3 := h
          unfold badShape at h3
          rw [hlk] at h3
          simpa [hd] using h3
        unfold scoresShapeOK
        rw [hlk]
        simp [hd]
        intro hlen
        rcases Bool.or_eq_true _ _ ▸ h2 with hl | hn
        · exfalso
          have : xs.length ≠ 7 := by simpa using hl
          exact this hlen
        · rw [List.any_eq_true] at hn
          obtain ⟨x, hx, hnum⟩ := hn
          refine ⟨x, hx, ?_⟩
          cases hOK : entryOK x
          · rfl
          · rw [entryOK_not_number hOK] at hnum
            cases hnum
      | null => simp [scoresShapeOK, hd, hlk]
      | bool b => simp [scoresShapeOK, hd, hlk]
      | num q => simp [scoresShapeOK, hd, hlk]
      | str s => simp [scoresShapeOK, hd, hlk]
      | dict d => simp [scoresShapeOK, hd, hlk]
  · have hd2 : reply.isDict = false := by
      cases hq : reply.isDict
      · rfl
      · exact absurd hq hd
    simp [scoresShapeOK, hd2]

theorem shapeOK_entries {reply : PyVal} (h : scoresShapeOK reply = true) :
    (scoresOf reply).length = 7 ∧ ∀ x ∈ scoresOf reply, entryOK x = true := by
  unfold scoresShapeOK at h
  have hs := (Bool.and_eq_true _ _ ▸ h).2
  cases hlk : reply.lookup "scores" with
  | none => rw [hlk] at hs; cases hs
  | some sv =>
    rw [hlk] at hs
    cases sv with
    | list xs =>
      have hs2 : ((xs.length == 7) && xs.all fun x => entryOK x) = true := hs
      have hsc : scoresOf reply = xs := by simp [scoresOf, hlk]
      rw [hsc]
      constructor
      · have hl := (Bool.and_eq_true _ _ ▸ hs2).1
        simpa using hl
      · have ha := (Bool.and_eq_true _ _ ▸ hs2).2
        simpa [List.all_eq_true] using ha
    | null => simp at hs
    | bool b => simp at hs
    | num q => simp at hs
    | str s => simp at hs
    | dict d => simp at hs

theorem reconcileEntry_marks (x : PyVal) (hOK : entryOK x = true) :
    ((reconcileEntry x).lookup "level" = some (PyVal.str "Poor") →
        (reconcileEntry x).lookup "mark" = some (PyVal.num 0)) ∧
    ((reconcileEntry x).lookup "level" = some (PyVal.str "Basic") →
        (maxScoreFor ((reconcileEntry x).getD "criterion" (PyVal.str "")) = 4 →
          (reconcileEntry x).lookup "mark" = some (PyVal.num 2)) ∧
        (maxScoreFor ((reconcileEntry x).getD "criterion" (PyVal.str "")) = 2 →
          (reconcileEntry x).lookup "mark" = some (PyVal.num 1))) ∧
    ((reconcileEntry x).lookup "level" = some (PyVal.str "Advanced") →
        (maxScoreFor ((reconcileEntry x).getD "criterion" (PyVal.str "")) = 4 →
          (reconcileEntry x).lookup "mark" = some (PyVal.num 4)) ∧
        (maxScoreFor ((reconcileEntry x).getD "criterion" (PyVal.str "")) = 2 →
          (reconcileEntry x).lookup "mark" = some (PyVal.num 2))) := by
  have hd := entryOK_isDict hOK
  have hm := reconcileEntry_lookup_mark x hd
  have hlv := reconcileEntry_lookup_ne x "level" (by decide)
  have hc : (reconcileEntry x).getD "criterion" (PyVal.str "")
      = x.getD "criterion" (PyVal.str "") := by
    simp [PyVal.getD, reconcileEntry_lookup_ne x "criterion" (by decide)]
  refine ⟨fun hl => ?_,
    fun hl => ⟨fun hms => ?_, fun hms => ?_⟩,
    fun hl => ⟨fun hms => ?_, fun hms => ?_⟩⟩
  · rw [hlv] at hl
    have hlx : x.getD "level" PyVal.null = PyVal.str "Poor" := by simp [PyVal.getD, hl]
    rw [hm, hlx, reconcileMark_poor]
  · rw [hlv] at hl
    have hlx : x.getD "level" PyVal.null = PyVal.str "Basic" := by simp [PyVal.getD, hl]
    rw [hc] at hms
    rw [hm, hlx, reconcileMark_basic4 _ hms]
  · rw [hlv] at hl
    have hlx : x.getD "level" PyVal.null = PyVal.str "Basic" := by simp [PyVal.getD, hl]
    rw [hc] at hms
    rw [hm, hlx, reconcileMark_basic2 _ hms]
  · rw [hlv] at hl
    have hlx : x.getD "level" PyVal.null = PyVal.str "Advanced" := by simp [PyVal.getD, hl]
    rw [hc] at hms
    rw [hm, hlx, reconcileMark_advanced4 _ hms]
  · rw [hlv] at hl
    have hlx : x.getD "level" PyVal.null = PyVal.str "Advanced" := by simp [PyVal.getD, hl]
    rw [hc] at hms
    rw [hm, hlx, reconcileMark_advanced2 _ hms]

/-! ### The claimed properties -/

/-- C2: a reply whose top-level shape is wrong — not a mapping, missing
the scores key, scores not a sequence, scores of length other than 7, or a
scores entry that is a bare number — always fails validation with an
error, and generate_score constructs no result for it: nothing is
truncated, padded or coerced. -/
theorem malformed_reply_fails (reply : PyVal) (h : badShape reply = true) :
    isErr (analyze_transcript_with_llm reply) = true ∧
    ∀ t : String, isErr (generate_score t reply) = true := by
  have hshape : scoresShapeOK reply = false := badShape_shape_false reply h
  have h1 := analyze_err_of_not_shape reply hshape
  refine ⟨h1, fun t => ?_⟩
  cases han : analyze_transcript_with_llm reply with
  | error e => simp [generate_score, han, isErr]
  | ok ar => rw [han] at h1; simp [isErr] at h1

/-- Witness for C2 at a concrete reply whose scores array is 5 bare
numbers. -/
theorem malformed_reply_fails_witness :
    badShape replyLen5 = true ∧
    isErr (analyze_transcript_with_llm replyLen5) = true :=
  ⟨by decide, (malformed_reply_fails replyLen5 (by decide)).1⟩

/-- C3: an empty or whitespace-only transcript makes generate_scorecard
return the structured failure result with the empty-transcript diagnostic,
and the scoring (LLM) collaborator is never called: the call counter of
the embedding stays 0. -/
theorem empty_transcript_no_llm_call (t : String) (llm : PyVal)
    (h : pyStrip t = "") :
    (generate_scorecard t llm).1.success = false ∧
    (generate_scorecard t llm).1.error = some "Transcript text is empty or invalid" ∧
    (generate_scorecard t llm).2 = 0 := by
  simp [generate_scorecard, h]

/-- Witness for C3 at a concrete whitespace-only transcript. -/
theorem empty_transcript_no_llm_call_witness :
    pyStrip "  \n\t " = "" ∧
    ((generate_scorecard "  \n\t " PyVal.null).1.success = false ∧
     (generate_scorecard "  \n\t " PyVal.null).1.error
        = some "Transcript text is empty or invalid" ∧
     (generate_scorecard "  \n\t " PyVal.null).2 = 0) :=
  ⟨by decide, empty_transcript_no_llm_call "  \n\t " PyVal.null (by decide)⟩

/-- C6 (code bug): on every TRANSCRIPT_CHUNK event the handler at main.py
line 50 calls generate_questions_online with 2 arguments while the callee
at question_generation.py line 73 declares 3 required parameters, so the
call raises TypeError: the suggestion oracle is never consulted and no
NEW_SUGGESTED_QUESTION event is emitted, for any session state and any
payload. -/
theorem transcript_chunk_type_error (st : QGState) (payload : List Char)
    (oracle : List Char → List Char) :
    transcript_chunk_call_argCount ≠ generate_questions_online_paramCount ∧
    (handle_transcript_chunk st payload oracle).2
      = Except.error "TypeError: generate_questions_online missing 1 required positional argument: transcript" := by
  exact ⟨by decide, rfl⟩

/-- C7: after a TRANSCRIPT_CHUNK event the stored transcript window is the
last min(L+P, 500) characters of the old window concatenated with the
payload: its length is min (L+P) 500 and it is a suffix of the
concatenation; in particular a 600-character payload appended to a
200-character buffer leaves a window of exactly 500 characters equal to
the tail of the concatenation. -/
theorem transcript_window_truncation :
    (∀ (st : QGState) (payload : List Char) (oracle : List Char → List Char),
      ((handle_transcript_chunk st payload oracle).1.TRANSCRIPT).length
          = min (st.TRANSCRIPT.length + payload.length) 500 ∧
        (handle_transcript_chunk st payload oracle).1.TRANSCRIPT
          <:+ st.TRANSCRIPT ++ payload) ∧
    (handle_transcript_chunk
        { initQGState with TRANSCRIPT := List.replicate 200 'a' }
        (List.replicate 600 'b') (fun _ => [])).1.TRANSCRIPT
      = (List.replicate 200 'a' ++ List.replicate 600 'b').drop 300 := by
  constructor
  · intro st payload oracle
    constructor
    · show (pySliceLast 500 (st.TRANSCRIPT ++ payload)).length = _
      simp [pySliceLast]
      omega
    · show pySliceLast 500 (st.TRANSCRIPT ++ payload) <:+ _
      exact List.drop_suffix _ _
  · rfl

/-- C9 (code bug): the transcript window lives in a module-level global
shared by every websocket connection, so the events of one session mutate
the context the other session uses: after session A's chunk is processed,
session B's first chunk is appended to A's text and B's stored window
contains A's transcript. -/
theorem sessions_share_transcript_state :
    ∀ oracle : List Char → List Char,
      ((handle_transcript_chunk
          (handle_transcript_chunk initQGState
            ("Session A: private answer. ".data) oracle).1
          ("Session B: hello.".data) oracle).1).TRANSCRIPT
        = ("Session A: private answer. Session B: hello.".data) := by
  intro oracle
  rfl

/-- C8: the report section split is purely positional: for any 7-item
category list, items 0-2 render in the Role-based Skills section and items
3-6 in the Cultural Fit section, whatever tier-like metadata the entries
carry. -/
theorem report_split_positional (sd : ScoreData) (h : sd.categories.length = 7) :
    (create_html_output_sections sd).1
        = [sd.categories.get ⟨0, by omega⟩, sd.categories.get ⟨1, by omega⟩,
           sd.categories.get ⟨2, by omega⟩] ∧
    (create_html_output_sections sd).2
        = [sd.categories.get ⟨3, by omega⟩, sd.categories.get ⟨4, by omega⟩,
           sd.categories.get ⟨5, by omega⟩, sd.categories.get ⟨6, by omega⟩] := by
  obtain ⟨a, b, c, d, e, f, g, hl⟩ := list_len7 sd.categories h
  unfold create_html_output_sections
  simp [hl]

/-- Witness for C8 at a concrete 7-category score result. -/
theorem report_split_positional_witness :
    sdSeven.categories.length = 7 ∧
    ((create_html_output_sections sdSeven).1
        = [sdSeven.categories.get ⟨0, by decide⟩, sdSeven.categories.get ⟨1, by decide⟩,
           sdSeven.categories.get ⟨2, by decide⟩] ∧
     (create_html_output_sections sdSeven).2
        = [sdSeven.categories.get ⟨3, by decide⟩, sdSeven.categories.get ⟨4, by decide⟩,
           sdSeven.categories.get ⟨5, by decide⟩, sdSeven.categories.get ⟨6, by decide⟩]) :=
  ⟨by decide, report_split_positional sdSeven (by decide)⟩

/-- C1: in every validated reply the returned mark of each score entry is
reconciled against the entry's level using the criterion's mark scale,
with the level authoritative: Poor forces mark 0; Basic forces 2 when the
criterion's maximum is 4 and 1 when it is 2; Advanced forces 4 when the
maximum is 4 and 2 when it is 2; and a criterion name matching no rubric
criterion reconciles against the default maximum of 4 instead of
failing. -/
theorem mark_reconciliation (reply result : PyVal)
    (h : analyze_transcript_with_llm reply = Except.ok result) :
    (∃ es : List PyVal, result.lookup "scores" = some (PyVal.list es) ∧
      ∀ e ∈ es,
        (e.lookup "level" = some (PyVal.str "Poor") →
          e.lookup "mark" = some (PyVal.num 0)) ∧
        (e.lookup "level" = some (PyVal.str "Basic") →
          (maxScoreFor (e.getD "criterion" (PyVal.str "")) = 4 →
            e.lookup "mark" = some (PyVal.num 2)) ∧
          (maxScoreFor (e.getD "criterion" (PyVal.str "")) = 2 →
            e.lookup "mark" = some (PyVal.num 1))) ∧
        (e.lookup "level" = some (PyVal.str "Advanced") →
          (maxScoreFor (e.getD "criterion" (PyVal.str "")) = 4 →
            e.lookup "mark" = some (PyVal.num 4)) ∧
          (maxScoreFor (e.getD "criterion" (PyVal.str "")) = 2 →
            e.lookup "mark" = some (PyVal.num 2)))) ∧
    (∀ v : PyVal, (∀ item ∈ SCORING_RUBRIC, PyVal.str item.criterion ≠ v) →
      maxScoreFor v = 4) := by
  refine ⟨?_, fun v hv => maxScoreFor_default v hv⟩
  obtain ⟨hshape, har⟩ := analyze_ok_elim reply result h
  have hdr : reply.isDict = true := by
    unfold scoresShapeOK at hshape
    exact (Bool.and_eq_true _ _ ▸ hshape).1
  obtain ⟨fkvs, hfk⟩ := isDict_exists (fixFeedback_isDict reply hdr)
  refine ⟨(scoresOf reply).map reconcileEntry, ?_, ?_⟩
  · rw [har, hfk]
    exact lookup_set_self fkvs "scores" _
  · intro e he
    obtain ⟨x, hx, rfl⟩ := List.mem_map.mp he
    exact reconcileEntry_marks x ((shapeOK_entries hshape).2 x hx)

/-- Witness for C1 at replyGood, whose Poor entry carries mark 5 (forced
to 0) and whose Basic entry on a maximum of 2 carries mark 3 (forced to
1). -/
theorem mark_reconciliation_witness :
    analyze_transcript_with_llm replyGood = Except.ok resultGood ∧
    ((∃ es : List PyVal, resultGood.lookup "scores" = some (PyVal.list es) ∧
      ∀ e ∈ es,
        (e.lookup "level" = some (PyVal.str "Poor") →
          e.lookup "mark" = some (PyVal.num 0)) ∧
        (e.lookup "level" = some (PyVal.str "Basic") →
          (maxScoreFor (e.getD "criterion" (PyVal.str "")) = 4 →
            e.lookup "mark" = some (PyVal.num 2)) ∧
          (maxScoreFor (e.getD "criterion" (PyVal.str "")) = 2 →
            e.lookup "mark" = some (PyVal.num 1))) ∧
        (e.lookup "level" = some (PyVal.str "Advanced") →
          (maxScoreFor (e.getD "criterion" (PyVal.str "")) = 4 →
            e.lookup "mark" = some (PyVal.num 4)) ∧
          (maxScoreFor (e.getD "criterion" (PyVal.str "")) = 2 →
            e.lookup "mark" = some (PyVal.num 2)))) ∧
     (∀ v : PyVal, (∀ item ∈ SCORING_RUBRIC, PyVal.str item.criterion ≠ v) →
       maxScoreFor v = 4)) :=
  ⟨by rfl, mark_reconciliation replyGood resultGood (by rfl)⟩

/-- C4: for every reply that passes the score-array validation the
analysis succeeds — the success predicate scoresShapeOK does not mention
the feedback value at all, so a missing or wrongly typed feedback mapping
never causes a failure — and the result carries positive and negative
feedback lists each of length at least 2: the supplied items (empty when
the feedback mapping or the key is missing or wrongly typed) are preserved
as a prefix and padded with the placeholder up to length 2, so items
beyond 2 are preserved rather than truncated. -/
theorem feedback_self_healing (reply : PyVal) (h : scoresShapeOK reply = true) :
    ∃ result fb : PyVal,
      analyze_transcript_with_llm reply = Except.ok result ∧
      result.lookup "feedback" = some fb ∧
      fb.lookup "positive" = some (PyVal.list
        (suppliedFeedbackList reply "positive" ++
          List.replicate (2 - (suppliedFeedbackList reply "positive").length) placeholder)) ∧
      fb.lookup "negative" = some (PyVal.list
        (suppliedFeedbackList reply "negative" ++
          List.replicate (2 - (suppliedFeedbackList reply "negative").length) placeholder)) ∧
      (∀ xs : List PyVal, fb.lookup "positive" = some (PyVal.list xs) → 2 ≤ xs.length) ∧
      (∀ xs : List PyVal, fb.lookup "negative" = some (PyVal.list xs) → 2 ≤ xs.length) := by
  have hdr : reply.isDict = true := by
    unfold scoresShapeOK at h
    exact (Bool.and_eq_true _ _ ▸ h).1
  obtain ⟨fb, hfb, hpos, hneg⟩ := fixFeedback_spec reply hdr
  refine ⟨_, fb, analyze_ok_of_shape reply h, ?_, ?_, ?_, ?_, ?_⟩
  · rw [lookup_set_ne _ "scores" "feedback" _ (by decide)]
    exact hfb
  · rw [hpos, padTo2_eq]
  · rw [hneg, padTo2_eq]
  · intro xs hxs
    rw [hpos] at hxs
    have h3 := PyVal.list.inj (Option.some.inj hxs)
    rw [← h3]
    exact padTo2_length _
  · intro xs hxs
    rw [hneg] at hxs
    have h3 := PyVal.list.inj (Option.some.inj hxs)
    rw [← h3]
    exact padTo2_length _

/-- Witness for C4 at replyOver, which carries no feedback key at all. -/
theorem feedback_self_healing_witness :
    scoresShapeOK replyOver = true ∧
    (∃ result fb : PyVal,
      analyze_transcript_with_llm replyOver = Except.ok result ∧
      result.lookup "feedback" = some fb ∧
      fb.lookup "positive" = some (PyVal.list
        (suppliedFeedbackList replyOver "positive" ++
          List.replicate (2 - (suppliedFeedbackList replyOver "positive").length) placeholder)) ∧
      fb.lookup "negative" = some (PyVal.list
        (suppliedFeedbackList replyOver "negative" ++
          List.replicate (2 - (suppliedFeedbackList replyOver "negative").length) placeholder)) ∧
      (∀ xs : List PyVal, fb.lookup "positive" = some (PyVal.list xs) → 2 ≤ xs.length) ∧
      (∀ xs : List PyVal, fb.lookup "negative" = some (PyVal.list xs) → 2 ≤ xs.length)) :=
  ⟨by decide, feedback_self_healing replyOver (by decide)⟩

/-- C10: a score entry whose level is a string outside Poor/Basic/Advanced
passes validation — the analysis still succeeds and no error is raised for
the level value — and its mark is left exactly as the LLM supplied it (no
reconciliation), so an arbitrary mark flows unmodified into the total:
concretely, replyRogue (level Excellent with mark 99 on its first entry,
the rest Poor) scores a total of 99. -/
theorem unknown_level_passes_unreconciled (reply : PyVal)
    (h : scoresShapeOK reply = true) :
    (∃ result : PyVal, analyze_transcript_with_llm reply = Except.ok result ∧
      result.lookup "scores" = some (PyVal.list ((scoresOf reply).map reconcileEntry))) ∧
    (∀ x ∈ scoresOf reply, ∀ s : String,
      x.lookup "level" = some (PyVal.str s) →
      s ≠ "Poor" → s ≠ "Basic" → s ≠ "Advanced" →
      (reconcileEntry x).lookup "mark" = x.lookup "mark") ∧
    totalScoreOf (generate_score "interview" replyRogue) = 99 := by
  have hdr : reply.isDict = true := by
    unfold scoresShapeOK at h
    exact (Bool.and_eq_true _ _ ▸ h).1
  obtain ⟨fkvs, hfk⟩ := isDict_exists (fixFeedback_isDict reply hdr)
  refine ⟨⟨_, analyze_ok_of_shape reply h, ?_⟩, ?_, ?_⟩
  · rw [hfk]
    exact lookup_set_self fkvs "scores" _
  · intro x hx s hls hp hb ha
    have hOK := (shapeOK_entries h).2 x hx
    have hd := entryOK_isDict hOK
    have hgl : x.getD "level" PyVal.null = PyVal.str s := by simp [PyVal.getD, hls]
    have hun : reconcileMark (x.getD "level" PyVal.null) (x.getD "mark" PyVal.null)
        (maxScoreFor (x.getD "criterion" (PyVal.str ""))) = x.getD "mark" PyVal.null := by
      apply reconcileMark_unknown
      · rw [hgl]; intro hc; exact hp (PyVal.str.inj hc)
      · rw [hgl]; intro hc; exact hb (PyVal.str.inj hc)
      · rw [hgl]; intro hc; exact ha (PyVal.str.inj hc)
    rw [reconcileEntry_lookup_mark x hd, hun]
    exact (hasKey_getD (entryOK_hasKey hOK (by decide)) PyVal.null).symm
  · show (99 : ℚ) + (0 + (0 + (0 + (0 + (0 + (0 + 0)))))) = 99
    norm_num

/-- Witness for C10 at replyRogue. -/
theorem unknown_level_passes_unreconciled_witness :
    scoresShapeOK replyRogue = true ∧
    ((∃ result : PyVal, analyze_transcript_with_llm replyRogue = Except.ok result ∧
      result.lookup "scores"
        = some (PyVal.list ((scoresOf replyRogue).map reconcileEntry))) ∧
    (∀ x ∈ scoresOf replyRogue, ∀ s : String,
      x.lookup "level" = some (PyVal.str s) →
      s ≠ "Poor" → s ≠ "Basic" → s ≠ "Advanced" →
      (reconcileEntry x).lookup "mark" = x.lookup "mark") ∧
    totalScoreOf (generate_score "interview" replyRogue) = 99) :=
  ⟨by decide, unknown_level_passes_unreconciled replyRogue (by decide)⟩

/-- Counterexample to C5 as stated: replyOver passes validation (7
structured entries, all levels valid) yet its total score is 28, outside
[0, 20] — the default maximum of 4 used for criterion names that match no
rubric criterion lets seven Advanced entries total 28. -/
theorem total_score_range_counterexample :
    totalScoreOf (generate_score "hello world" replyOver) = 28 ∧
    isErr (generate_score "hello world" replyOver) = false ∧
    ¬((28 : ℚ) ≤ 20) := by
  refine ⟨?_, by decide, by norm_num⟩
  show (4 : ℚ) + (4 + (4 + (4 + (4 + (4 + (4 + 0)))))) = 28
  norm_num

/-- C5 (amended): for every reply the scoring operation accepts, the
returned totalScore is the sum of the marks of the 7 returned entries,
maxScore is the constant 20, percentage is totalScore/20×100 and the grade
is the string "totalScore/20"; the total moreover lies in [0, 20] whenever
each returned entry names the rubric criterion at its position and carries
one of the three valid levels. -/
theorem aggregate_score_formulas (t : String) (reply : PyVal) (sd : ScoreData)
    (h : generate_score t reply = Except.ok sd) :
    sd.scores.length = 7 ∧
    sumMarks sd.scores = some sd.total_score ∧
    sd.max_score = 20 ∧
    sd.percentage = sd.total_score / 20 * 100 ∧
    sd.overall_grade = pyNumStr sd.total_score ++ "/" ++ pyNumStr 20 ∧
    (criteriaMatchRubric sd.scores = true →
      (∀ e ∈ sd.scores, levelValid e = true) →
      0 ≤ sd.total_score ∧ sd.total_score ≤ 20) := by
  obtain ⟨hshape, hscores, hsum, hmax, hpct, hgrade, hcats⟩ :=
    generate_score_ok_elim t reply sd h
  obtain ⟨hlen7, hallOK⟩ := shapeOK_entries hshape
  have hslen : sd.scores.length = 7 := by rw [hscores]; simp [hlen7]
  refine ⟨hslen, hsum, hmax, hpct, hgrade, ?_⟩
  intro hcrit hlv
  obtain ⟨x0, x1, x2, x3, x4, x5, x6, hxs⟩ := list_len7 (scoresOf reply) hlen7
  have hsd : sd.scores = [reconcileEntry x0, reconcileEntry x1, reconcileEntry x2,
      reconcileEntry x3, reconcileEntry x4, reconcileEntry x5, reconcileEntry x6] := by
    rw [hscores, hxs]
    simp
  have hOK0 : entryOK x0 = true := hallOK x0 (by rw [hxs]; simp)
  have hOK1 : entryOK x1 = true := hallOK x1 (by rw [hxs]; simp)
  have hOK2 : entryOK x2 = true := hallOK x2 (by rw [hxs]; simp)
  have hOK3 : entryOK x3 = true := hallOK x3 (by rw [hxs]; simp)
  have hOK4 : entryOK x4 = true := hallOK x4 (by rw [hxs]; simp)
  have hOK5 : entryOK x5 = true := hallOK x5 (by rw [hxs]; simp)
  have hOK6 : entryOK x6 = true := hallOK x6 (by rw [hxs]; simp)
  have hlv0 : levelValid (reconcileEntry x0) = true := hlv _ (by rw [hsd]; simp)
  have hlv1 : levelValid (reconcileEntry x1) = true := hlv _ (by rw [hsd]; simp)
  have hlv2 : levelValid (reconcileEntry x2) = true := hlv _ (by rw [hsd]; simp)
  have hlv3 : levelValid (reconcileEntry x3) = true := hlv _ (by rw [hsd]; simp)
  have hlv4 : levelValid (reconcileEntry x4) = true := hlv _ (by rw [hsd]; simp)
  have hlv5 : levelValid (reconcileEntry x5) = true := hlv _ (by rw [hsd]; simp)
  have hlv6 : levelValid (reconcileEntry x6) = true := hlv _ (by rw [hsd]; simp)
  have hcrit2 := hcrit
  rw [hsd] at hcrit2
  simp [criteriaMatchRubric, SCORING_RUBRIC] at hcrit2
  obtain ⟨hc0, hc1, hc2, hc3, hc4, hc5, hc6⟩ := hcrit2
  have hgc0 : x0.getD "criterion" (PyVal.str "")
      = PyVal.str "Analytical thinking and problem solving" := by
    rw [← hc0]
    simp [PyVal.getD, reconcileEntry_lookup_ne x0 "criterion" (by decide)]
  have hgc1 : x1.getD "criterion" (PyVal.str "")
      = PyVal.str "Mastering analytical toolset (Python, ...)" := by
    rw [← hc1]
    simp [PyVal.getD, reconcileEntry_lookup_ne x1 "criterion" (by decide)]
  have hgc2 : x2.getD "criterion" (PyVal.str "")
      = PyVal.str "Communication with stakeholders" := by
    rw [← hc2]
    simp [PyVal.getD, reconcileEntry_lookup_ne x2 "criterion" (by decide)]
  have hgc3 : x3.getD "criterion" (PyVal.str "")
      = PyVal.str "Ambition / High standards" := by
    rw [← hc3]
    simp [PyVal.getD, reconcileEntry_lookup_ne x3 "criterion" (by decide)]
  have hgc4 : x4.getD "criterion" (PyVal.str "") = PyVal.str "Curiosity" := by
    rw [← hc4]
    simp [PyVal.getD, reconcileEntry_lookup_ne x4 "criterion" (by decide)]
  have hgc5 : x5.getD "criterion" (PyVal.str "") = PyVal.str "Honesty / Integrity" := by
    rw [← hc5]
    simp [PyVal.getD, reconcileEntry_lookup_ne x5 "criterion" (by decide)]
  have hgc6 : x6.getD "criterion" (PyVal.str "") = PyVal.str "Work ethic" := by
    rw [← hc6]
    simp [PyVal.getD, reconcileEntry_lookup_ne x6 "criterion" (by decide)]
  have hms0 : maxScoreFor (x0.getD "criterion" (PyVal.str "")) = 4 := by
    rw [hgc0]; decide
  have hms1 : maxScoreFor (x1.getD "criterion" (PyVal.str "")) = 4 := by
    rw [hgc1]; decide
  have hms2 : maxScoreFor (x2.getD "criterion" (PyVal.str "")) = 4 := by
    rw [hgc2]; decide
  have hms3 : maxScoreFor (x3.getD "criterion" (PyVal.str "")) = 2 := by
    rw [hgc3]; decide
  have hms4 : maxScoreFor (x4.getD "criterion" (PyVal.str "")) = 2 := by
    rw [hgc4]; decide
  have hms5 : maxScoreFor (x5.getD "criterion" (PyVal.str "")) = 2 := by
    rw [hgc5]; decide
  have hms6 : maxScoreFor (x6.getD "criterion" (PyVal.str "")) = 2 := by
    rw [hgc6]; decide
  obtain ⟨m0, hm0, h0l, h0u⟩ := reconciled_mark_of_valid x0 hOK0 hlv0
  obtain ⟨m1, hm1, h1l, h1u⟩ := reconciled_mark_of_valid x1 hOK1 hlv1
  obtain ⟨m2, hm2, h2l, h2u⟩ := reconciled_mark_of_valid x2 hOK2 hlv2
  obtain ⟨m3, hm3, h3l, h3u⟩ := reconciled_mark_of_valid x3 hOK3 hlv3
  obtain ⟨m4, hm4, h4l, h4u⟩ := reconciled_mark_of_valid x4 hOK4 hlv4
  obtain ⟨m5, hm5, h5l, h5u⟩ := reconciled_mark_of_valid x5 hOK5 hlv5
  obtain ⟨m6, hm6, h6l, h6u⟩ := reconciled_mark_of_valid x6 hOK6 hlv6
  rw [hms0] at h0u
  rw [hms1] at h1u
  rw [hms2] at h2u
  rw [hms3] at h3u
  rw [hms4] at h4u
  rw [hms5] at h5u
  rw [hms6] at h6u
  have h0u2 : m0 ≤ 4 := by exact_mod_cast h0u
  have h1u2 : m1 ≤ 4 := by exact_mod_cast h1u
  have h2u2 : m2 ≤ 4 := by exact_mod_cast h2u
  have h3u2 : m3 ≤ 2 := by exact_mod_cast h3u
  have h4u2 : m4 ≤ 2 := by exact_mod_cast h4u
  have h5u2 : m5 ≤ 2 := by exact_mod_cast h5u
  have h6u2 : m6 ≤ 2 := by exact_mod_cast h6u
  have hsum2 : sumMarks sd.scores
      = some (m0 + (m1 + (m2 + (m3 + (m4 + (m5 + (m6 + 0))))))) := by
    rw [hsd]
    simp [sumMarks, PyVal.asNum, hm0, hm1, hm2, hm3, hm4, hm5, hm6]
  rw [hsum] at hsum2
  have htot : sd.total_score = m0 + (m1 + (m2 + (m3 + (m4 + (m5 + (m6 + 0)))))) :=
    Option.some.inj hsum2
  constructor
  · rw [htot]; linarith
  · rw [htot]; linarith

theorem gen_good_eval : generate_score "hello world" replyGood = Except.ok sdGood := by
  have h0 : generate_score "hello world" replyGood = Except.ok
      { overall_grade :=
          pyNumStr ((4 : ℚ) + (2 + (0 + (1 + (2 + (0 + (1 + 0))))))) ++ "/" ++ pyNumStr 20
        total_score := (4 : ℚ) + (2 + (0 + (1 + (2 + (0 + (1 + 0))))))
        max_score := 20
        percentage :=
          if (20 : ℚ) > 0 then
            ((4 : ℚ) + (2 + (0 + (1 + (2 + (0 + (1 + 0))))))) / 20 * 100
          else 0
        categories := scoresGoodReconciled.map mkCategory
        scores := scoresGoodReconciled
        feedback := feedbackGoodFixed
        transcript_length := 11
        word_count := 2
        transcript_preview := "hello world" } := by rfl
  have ht : (4 : ℚ) + (2 + (0 + (1 + (2 + (0 + (1 + 0)))))) = 10 := by norm_num
  rw [h0, ht]
  have hg : pyNumStr (10 : ℚ) ++ "/" ++ pyNumStr (20 : ℚ) = "10/20" := by
    have hd10 : ((10 : ℚ).den = 1) := by norm_num
    have hd20 : ((20 : ℚ).den = 1) := by norm_num
    have hn10 : ((10 : ℚ).num = 10) := by norm_num
    have hn20 : ((20 : ℚ).num = 20) := by norm_num
    simp [pyNumStr, hd10, hd20, hn10, hn20]
    decide
  have hpc : (if (20 : ℚ) > 0 then (10 : ℚ) / 20 * 100 else 0) = 50 := by norm_num
  rw [hg, hpc]
  rfl

/-- Witness for the amended C5 at replyGood: total 10, grade "10/20",
percentage 50. -/
theorem aggregate_score_formulas_witness :
    generate_score "hello world" replyGood = Except.ok sdGood ∧
    (sdGood.scores.length = 7 ∧
     sumMarks sdGood.scores = some sdGood.total_score ∧
     sdGood.max_score = 20 ∧
     sdGood.percentage = sdGood.total_score / 20 * 100 ∧
     sdGood.overall_grade = pyNumStr sdGood.total_score ++ "/" ++ pyNumStr 20 ∧
     (criteriaMatchRubric sdGood.scores = true →
       (∀ e ∈ sdGood.scores, levelValid e = true) →
       0 ≤ sdGood.total_score ∧ sdGood.total_score ≤ 20)) :=
  ⟨gen_good_eval, aggregate_score_formulas "hello world" replyGood sdGood gen_good_eval⟩

end Iterate
